import Mathlib

/-!
Verification of the streaming transcription pipeline of `asr_faster_whisper`.

We shallowly embed the parts of the program the properties below speak about:

* `app/services/whisper/whisper_service.py`:
  - `WhisperService._process_raw_audio` (raw little-endian 16-bit PCM fallback),
  - the VAD parameter selection inside `WhisperService.transcribe`,
  - the short-circuit checks and segment aggregation of `WhisperService.transcribe`.
* `app/api/voice/__init__.py`:
  - `should_process_buffer`,
  - the per-connection buffer handling of `websocket_endpoint` (append,
    first-chunk logic, emit with overlap retention),
  - the send/teardown decisions of the receive loop.

Bytes are modelled as `Nat` (each < 256 where it matters), audio samples and
float quantities as `ℚ`, and the external pieces (pydub container parsing,
the faster-whisper engine call) as explicit function parameters (oracles),
so every theorem quantifies over their possible behaviours.
-/

namespace ASR

/-! ## Raw PCM fallback: `WhisperService._process_raw_audio`

Python (whisper_service.py, lines 290-307):
```
if len(audio_data) % 2 != 0:
    audio_data = audio_data[:-1]
audio_array = np.frombuffer(audio_data, dtype=np.int16).astype(np.float32)
audio_array = audio_array / 32768.0
```
`np.int16` on the deployment platforms is little-endian, so consecutive byte
pairs (lo, hi) give the sample value `lo + 256*hi` reinterpreted as a signed
16-bit integer.  The division by 32768 is exact in `ℚ`. -/

/-- Reinterpret a value in `[0, 65536)` as a signed 16-bit integer. -/
def toSigned16 (v : Nat) : Int :=
  if v < 32768 then (v : Int) else (v : Int) - 65536

/-- Group a byte list into consecutive (lo, hi) pairs, dropping a trailing
odd byte, exactly as `np.frombuffer(..., dtype=np.int16)` does after the
odd-length truncation. -/
def pcm16Pairs : List Nat → List (Nat × Nat)
  | lo :: hi :: rest => (lo, hi) :: pcm16Pairs rest
  | _ => []

/-- `WhisperService._process_raw_audio`: headerless little-endian 16-bit PCM,
normalized by 32768. -/
def _process_raw_audio (audio_data : List Nat) : List ℚ :=
  (pcm16Pairs audio_data).map fun p => (toSigned16 (p.1 + 256 * p.2) : ℚ) / 32768

/-! ## VAD policy selection (`WhisperService.transcribe`, lines 142-178) -/

/-- The `vad_parameters` dict passed to the engine. -/
structure VADParams where
  min_silence_duration_ms : Nat
  speech_pad_ms : Nat
  threshold : ℚ
  min_speech_duration_ms : Nat
deriving DecidableEq, Repr

/-- VAD gating and profile, exactly the branch structure of the source:
realtime mode has three energy branches (extreme-weak / weak / normal), the
file (batch) mode two; only the first branch of each disables VAD. -/
def selectVAD (realtime_mode : Bool) (audio_max : ℚ) : Bool × VADParams :=
  if realtime_mode then
    let vad_params : VADParams := ⟨2000, 1000, 1/20, 30⟩
    if audio_max < 1/1000 then (false, vad_params)
    else if audio_max < 1/100 then (true, vad_params)
    else (true, vad_params)
  else
    let vad_params : VADParams := ⟨1500, 800, 1/10, 50⟩
    if audio_max < 1/1000 then (false, vad_params)
    else (true, vad_params)

/-- `np.max(np.abs(audio_array))` over a decoded frame (frames reaching this
point are nonempty, so folding from 0 agrees with the numpy maximum). -/
def audioMax (samples : List ℚ) : ℚ :=
  samples.foldl (fun m x => max m |x|) 0

/-! ## `WhisperService.transcribe` (lines 99-227)

The container decoding chain (`_process_audio`) goes through pydub, an
external library; we abstract the whole of `_process_audio` as an oracle
`process_audio : List Nat → Option (List ℚ)` (`None` models the
all-formats-and-fallback-failed case).  The engine call
`self.model.transcribe(...)` is an oracle receiving the samples, the
`vad_filter` flag and the `vad_parameters`; it reports segments, a language
and a duration.  `audio_stats.rms` needs a real square root and no claim
mentions it, so the stats record keeps only the peak amplitude and the
sample count. -/

/-- One engine segment: `(segment.text, segment.avg_logprob)`. -/
structure Segment where
  text : String
  avg_logprob : ℚ
deriving DecidableEq, Repr

/-- What `self.model.transcribe` reports: the segment list and `info`. -/
structure EngineOutput where
  segments : List Segment
  language : String
  duration : ℚ
deriving DecidableEq, Repr

/-- The dict returned by `WhisperService.transcribe`, plus an
`engine_called` observation recording whether `self.model.transcribe` ran.
`segment_count` and `audio_stats` are `none` on the early-return paths,
where the Python dict lacks the corresponding keys. -/
structure TResult where
  text : String
  confidence : ℚ
  language : String
  duration : ℚ
  segment_count : Option Nat
  audio_stats : Option (ℚ × Nat)
  engine_called : Bool
deriving DecidableEq, Repr

/-- Python `str.strip()`: drop whitespace from both ends of the string,
implemented over the underlying character list (so it computes by
reduction; Lean's own `String.trim` is definitionally opaque). -/
def pyStrip (s : String) : String :=
  String.mk (((s.data.dropWhile Char.isWhitespace).reverse.dropWhile
    Char.isWhitespace).reverse)

/-- `WhisperService.transcribe`.  Mirrors the source control flow:
byte-length check (< 100), decode, empty / short-frame checks
(< 1600 samples), VAD selection, engine call, segment aggregation with the
zero-segment average defaulting to 0.0, and the confidence clamp
`max(0.0, min(1.0, (avg + 1.0) / 2.0))`. -/
def transcribe (process_audio : List Nat → Option (List ℚ))
    (engine : List ℚ → Bool → VADParams → EngineOutput)
    (audio_data : List Nat) (realtime_mode : Bool) : TResult :=
  if audio_data.length < 100 then
    ⟨"", 0, "zh", 0, none, none, false⟩
  else
    match process_audio audio_data with
    | none => ⟨"", 0, "zh", 0, none, none, false⟩
    | some audio_array =>
      if audio_array.length = 0 then
        ⟨"", 0, "zh", 0, none, none, false⟩
      else if audio_array.length < 1600 then
        ⟨"", 0, "zh", (audio_array.length : ℚ) / 16000, none, none, false⟩
      else
        let audio_max := audioMax audio_array
        let vad := selectVAD realtime_mode audio_max
        let out := engine audio_array vad.1 vad.2
        let transcription_text := out.segments.foldl (fun a s => a ++ s.text) ""
        let total_confidence := out.segments.foldl (fun a s => a + s.avg_logprob) 0
        let segment_count := out.segments.length
        let avg_confidence : ℚ :=
          if 0 < segment_count then total_confidence / (segment_count : ℚ) else 0
        let confidence := max 0 (min 1 ((avg_confidence + 1) / 2))
        ⟨pyStrip transcription_text, confidence, out.language, out.duration,
          some segment_count, some (audio_max, audio_array.length), true⟩

/-! ## Stream buffer manager (`app/api/voice/__init__.py`)

`AUDIO_CONFIG` thresholds (lines 29-43) and `should_process_buffer`
(lines 279-287), then the per-connection buffer handling of
`websocket_endpoint` as a step function on the buffer record created at
lines 480-485. -/

def min_buffer_size : Nat := 16000
def optimal_buffer_size : Nat := 32000
def max_buffer_size : Nat := 64000

/-- `should_process_buffer(buffer_size, is_first_chunk)`. -/
def should_process_buffer (buffer_size : Nat) (is_first_chunk : Bool) : Bool :=
  if is_first_chunk then
    decide (min_buffer_size ≤ buffer_size)
  else
    decide (optimal_buffer_size ≤ buffer_size) || decide (max_buffer_size ≤ buffer_size)

/-- The per-connection entry of `audio_buffers` (lines 480-485). -/
structure ClientBuffer where
  chunks : List (List Nat)
  first_chunk_processed : Bool
  total_size : Nat
  chunk_counter : Nat
deriving DecidableEq, Repr

/-- The buffer allocated on connection open. -/
def initBuffer : ClientBuffer :=
  ⟨[], false, 0, 0⟩

/-- What the binary-frame branch of the receive loop did with a frame.
`firstProcessed` / `emitted` mean `whisper_service.transcribe(..,
realtime_mode=True)` ran on the carried bytes; their `ok` flag records
whether that engine call returned normally (`false` = it raised). -/
inductive BinaryOutcome where
  | skippedEmpty
  | firstSkipped
  | buffered
  | firstProcessed (audio : List Nat) (ok : Bool)
  | emitted (combined : List Nat) (ok : Bool)
deriving DecidableEq, Repr

/-- The post-emit buffer update (lines 574-586): keep the trailing
`overlap_size = min_buffer_size // 2` bytes of the merged buffer when it is
larger than that, otherwise clear.  Python `combined_audio[-overlap_size:]`
is `List.drop (length - overlap_size)` here. -/
def emitUpdate (st : ClientBuffer) (combined : List Nat) : ClientBuffer :=
  let overlap_size := min_buffer_size / 2
  if overlap_size < combined.length then
    let overlap_data := combined.drop (combined.length - overlap_size)
    { st with chunks := [overlap_data], total_size := overlap_data.length }
  else
    { st with chunks := [], total_size := 0 }

/-- Lines 516-518: append the inbound chunk to `chunks`, add its length to
`total_size`, increment `chunk_counter`. -/
def appendChunk (st : ClientBuffer) (audio_data : List Nat) : ClientBuffer :=
  { st with chunks := st.chunks ++ [audio_data],
            total_size := st.total_size + audio_data.length,
            chunk_counter := st.chunk_counter + 1 }

/-- The binary-frame branch of the receive loop (lines 505-596): skip empty
frames before touching the buffer; append the chunk and bump the counters;
then either first-chunk handling (transcribe the chunk alone if it reaches
`min_buffer_size`, otherwise mark-and-skip) or accumulation with an emit
once `should_process_buffer(total_size)` holds.  When the engine call
raises, the statements after it (the `first_chunk_processed = True`
assignment at line 543 resp. the buffer update at lines 574-586) do not
run, which the `tOk = false` branches reflect. -/
def handleBinary (st : ClientBuffer) (audio_data : List Nat) (tOk : Bool) :
    ClientBuffer × BinaryOutcome :=
  if audio_data.length = 0 then
    (st, .skippedEmpty)
  else
    let st1 : ClientBuffer := appendChunk st audio_data
    if st1.first_chunk_processed = false then
      if should_process_buffer audio_data.length true then
        if tOk then ({ st1 with first_chunk_processed := true }, .firstProcessed audio_data true)
        else (st1, .firstProcessed audio_data false)
      else
        ({ st1 with first_chunk_processed := true }, .firstSkipped)
    else
      if should_process_buffer st1.total_size false then
        let combined := st1.chunks.flatten
        if tOk then (emitUpdate st1 combined, .emitted combined true)
        else (st1, .emitted combined false)
      else
        (st1, .buffered)

/-! ## Receive-loop send/teardown decisions (lines 499-669)

One loop iteration, as far as sends and loop exit are concerned.  Booleans
model whether the external operations succeed: `tOk` the engine call,
`sOk` the transcript send (line 612), `eOk` the error-message send
(line 631), and the send flags of `ping` (pong, line 647) and `timeout`
(heartbeat, line 659).  A pong-send exception escapes the inner handlers to
the generic `except` at line 667 and breaks the loop; a heartbeat-send
exception hits the `except` at line 663 and breaks; a transcript-send
exception is caught at line 621 and answered with an error message whose own
failure breaks at line 634. -/

/-- One inbound event of the receive loop. -/
inductive LoopEvent where
  | binary (data : List Nat) (tOk sOk eOk : Bool)
  | ping (sOk : Bool)
  | timeout (sOk : Bool)
  | disconnect
deriving DecidableEq, Repr

/-- Outcome of one loop iteration: the new buffer, whether the loop breaks,
and how many server-to-client sends failed during the iteration. -/
structure StepResult where
  buf : ClientBuffer
  breaks : Bool
  send_failures : Nat
deriving DecidableEq, Repr

/-- One iteration of the `while True` receive loop. -/
def loopStep (st : ClientBuffer) (ev : LoopEvent) : StepResult :=
  match ev with
  | .binary data tOk sOk eOk =>
    let r := handleBinary st data tOk
    match r.2 with
    | .skippedEmpty => ⟨r.1, false, 0⟩
    | .firstSkipped => ⟨r.1, false, 0⟩
    | .buffered => ⟨r.1, false, 0⟩
    | .firstProcessed _ ok =>
      if ok then
        if sOk then ⟨r.1, false, 0⟩
        else if eOk then ⟨r.1, false, 1⟩ else ⟨r.1, true, 2⟩
      else
        if eOk then ⟨r.1, false, 0⟩ else ⟨r.1, true, 1⟩
    | .emitted _ ok =>
      if ok then
        if sOk then ⟨r.1, false, 0⟩
        else if eOk then ⟨r.1, false, 1⟩ else ⟨r.1, true, 2⟩
      else
        if eOk then ⟨r.1, false, 0⟩ else ⟨r.1, true, 1⟩
  | .ping sOk => if sOk then ⟨st, false, 0⟩ else ⟨st, true, 1⟩
  | .timeout sOk => if sOk then ⟨st, false, 0⟩ else ⟨st, true, 1⟩
  | .disconnect => ⟨st, true, 0⟩

/-- The buffer invariant of the data model: the cumulative byte count equals
the summed lengths of the held chunks. -/
def bufInvariant (st : ClientBuffer) : Prop :=
  st.total_size = (st.chunks.map List.length).sum

/-- Run a sequence of binary frames (each with its engine-success flag)
through the buffer handling, from the freshly allocated buffer. -/
def runOps (ops : List (List Nat × Bool)) : ClientBuffer :=
  ops.foldl (fun st op => (handleBinary st op.1 op.2).1) initBuffer

/-! ## Helper lemmas -/

theorem pcm16Pairs_length : ∀ l : List Nat, (pcm16Pairs l).length = l.length / 2
  | [] => rfl
  | [_] => by simp [pcm16Pairs]
  | lo :: hi :: rest => by
    simp [pcm16Pairs, pcm16Pairs_length rest]
    omega

theorem pcm16Pairs_take_of_odd : ∀ l : List Nat, l.length % 2 = 1 →
    pcm16Pairs (l.take (l.length - 1)) = pcm16Pairs l
  | [], h => by simp at h
  | [_], _ => rfl
  | lo :: hi :: rest, h => by
    have hr : rest.length % 2 = 1 := by
      simp [List.length_cons] at h
      omega
    have e1 : (lo :: hi :: rest).take ((lo :: hi :: rest).length - 1)
        = lo :: hi :: rest.take (rest.length - 1) := by
      rw [show (lo :: hi :: rest).length - 1 = ((rest.length - 1) + 1) + 1 by
        simp [List.length_cons]; omega]
      rw [List.take_succ_cons, List.take_succ_cons]
    rw [e1]
    show (lo, hi) :: pcm16Pairs (rest.take (rest.length - 1))
        = (lo, hi) :: pcm16Pairs rest
    rw [pcm16Pairs_take_of_odd rest hr]

theorem pcm16Pairs_getElem? : ∀ (l : List Nat) (i : Nat),
    (pcm16Pairs l)[i]? =
      l[2 * i]?.bind fun lo => (l[2 * i + 1]?).map fun hi => (lo, hi)
  | [], i => by simp [pcm16Pairs]
  | [b], i => by
    cases i <;> simp [pcm16Pairs]
  | lo :: hi :: rest, i => by
    cases i with
    | zero => simp [pcm16Pairs]
    | succ j =>
      have ih := pcm16Pairs_getElem? rest j
      have e1 : 2 * (j + 1) = (2 * j + 1) + 1 := by ring
      have e2 : 2 * (j + 1) + 1 = (2 * j + 1 + 1) + 1 := by ring
      simp only [pcm16Pairs, List.getElem?_cons_succ, e1, e2]
      exact ih

theorem emitUpdate_pos (st : ClientBuffer) (combined : List Nat)
    (h : 8000 < combined.length) :
    emitUpdate st combined =
      { st with chunks := [combined.drop (combined.length - 8000)],
                total_size := 8000 } := by
  have h8 : min_buffer_size / 2 = 8000 := rfl
  simp only [emitUpdate]
  rw [h8, if_pos h]
  have hl : (combined.drop (combined.length - 8000)).length = 8000 := by
    rw [List.length_drop]
    omega
  rw [hl]

theorem emitUpdate_neg (st : ClientBuffer) (combined : List Nat)
    (h : combined.length ≤ 8000) :
    emitUpdate st combined = { st with chunks := [], total_size := 0 } := by
  have h8 : min_buffer_size / 2 = 8000 := rfl
  simp only [emitUpdate]
  rw [h8, if_neg (by omega)]

theorem emitUpdate_invariant (st : ClientBuffer) (c : List Nat) :
    bufInvariant (emitUpdate st c) := by
  unfold bufInvariant
  by_cases h : 8000 < c.length
  · rw [emitUpdate_pos st c h]
    show 8000 = (List.map List.length [c.drop (c.length - 8000)]).sum
    rw [List.map_cons, List.map_nil, List.sum_cons, List.sum_nil, List.length_drop]
    omega
  · rw [emitUpdate_neg st c (by omega)]
    show 0 = (List.map List.length ([] : List (List Nat))).sum
    rw [List.map_nil, List.sum_nil]

theorem appendChunk_invariant (st : ClientBuffer) (a : List Nat)
    (h : bufInvariant st) : bufInvariant (appendChunk st a) := by
  simp only [bufInvariant, appendChunk] at h ⊢
  simp [h]

theorem bufInvariant_set_first (st : ClientBuffer) (b : Bool)
    (h : bufInvariant st) : bufInvariant { st with first_chunk_processed := b } := by
  simpa [bufInvariant] using h

theorem appendChunk_chunks (st : ClientBuffer) (a : List Nat) :
    (appendChunk st a).chunks = st.chunks ++ [a] := rfl

theorem appendChunk_total (st : ClientBuffer) (a : List Nat) :
    (appendChunk st a).total_size = st.total_size + a.length := rfl

theorem setFirst_chunks (st : ClientBuffer) (b : Bool) :
    ({ st with first_chunk_processed := b } : ClientBuffer).chunks = st.chunks := rfl

theorem setFirst_total (st : ClientBuffer) (b : Bool) :
    ({ st with first_chunk_processed := b } : ClientBuffer).total_size = st.total_size := rfl

theorem replicate_zero_ne_nil (n : Nat) (h : n ≠ 0) :
    List.replicate n (0 : Nat) ≠ [] := by
  intro hc
  have hl := congrArg List.length hc
  rw [List.length_replicate, List.length_nil] at hl
  exact h hl

theorem should_process_buffer_true_iff (n : Nat) :
    should_process_buffer n true = true ↔ 16000 ≤ n := by
  simp [should_process_buffer, min_buffer_size]

theorem should_process_buffer_false_iff (n : Nat) :
    should_process_buffer n false = true ↔ 32000 ≤ n := by
  simp [should_process_buffer, optimal_buffer_size, max_buffer_size]
  omega

theorem handleBinary_zero (st : ClientBuffer) (a : List Nat) (tOk : Bool)
    (h : a.length = 0) : handleBinary st a tOk = (st, .skippedEmpty) := by
  simp only [handleBinary]
  rw [if_pos h]

theorem handleBinary_first_small (st : ClientBuffer) (a : List Nat) (tOk : Bool)
    (h1 : st.first_chunk_processed = false) (h2 : a.length ≠ 0)
    (h3 : a.length < 16000) :
    handleBinary st a tOk =
      ({ appendChunk st a with first_chunk_processed := true }, .firstSkipped) := by
  simp only [handleBinary]
  rw [if_neg h2, if_pos (show (appendChunk st a).first_chunk_processed = false from h1),
    if_neg (show ¬ should_process_buffer a.length true = true by
      rw [should_process_buffer_true_iff]
      omega)]

theorem handleBinary_first_big (st : ClientBuffer) (a : List Nat) (tOk : Bool)
    (h1 : st.first_chunk_processed = false) (h2 : a.length ≠ 0)
    (h3 : 16000 ≤ a.length) :
    handleBinary st a tOk =
      (if tOk then { appendChunk st a with first_chunk_processed := true }
       else appendChunk st a, .firstProcessed a tOk) := by
  simp only [handleBinary]
  rw [if_neg h2, if_pos (show (appendChunk st a).first_chunk_processed = false from h1),
    if_pos (show should_process_buffer a.length true = true by
      rw [should_process_buffer_true_iff]
      omega)]
  cases tOk <;> rfl

theorem handleBinary_buffered (st : ClientBuffer) (a : List Nat) (tOk : Bool)
    (h1 : st.first_chunk_processed = true) (h2 : a.length ≠ 0)
    (h3 : st.total_size + a.length < 32000) :
    handleBinary st a tOk = (appendChunk st a, .buffered) := by
  simp only [handleBinary]
  rw [if_neg h2,
    if_neg (show ¬ (appendChunk st a).first_chunk_processed = false by
      show ¬ st.first_chunk_processed = false
      rw [h1]; exact fun hc => Bool.noConfusion hc),
    if_neg (show ¬ should_process_buffer (appendChunk st a).total_size false = true by
      show ¬ should_process_buffer (st.total_size + a.length) false = true
      rw [should_process_buffer_false_iff]
      omega)]

theorem handleBinary_emit (st : ClientBuffer) (a : List Nat) (tOk : Bool)
    (h1 : st.first_chunk_processed = true) (h2 : a.length ≠ 0)
    (h3 : 32000 ≤ st.total_size + a.length) :
    handleBinary st a tOk =
      (if tOk then emitUpdate (appendChunk st a) ((appendChunk st a).chunks.flatten)
       else appendChunk st a,
       .emitted ((appendChunk st a).chunks.flatten) tOk) := by
  simp only [handleBinary]
  rw [if_neg h2,
    if_neg (show ¬ (appendChunk st a).first_chunk_processed = false by
      show ¬ st.first_chunk_processed = false
      rw [h1]; exact fun hc => Bool.noConfusion hc),
    if_pos (show should_process_buffer (appendChunk st a).total_size false = true by
      show should_process_buffer (st.total_size + a.length) false = true
      rw [should_process_buffer_false_iff]
      omega)]
  cases tOk <;> rfl

theorem handleBinary_invariant (st : ClientBuffer) (a : List Nat) (t : Bool)
    (h : bufInvariant st) : bufInvariant (handleBinary st a t).1 := by
  by_cases h0 : a.length = 0
  · rw [handleBinary_zero st a t h0]
    exact h
  · by_cases h1 : st.first_chunk_processed = false
    · by_cases h2 : a.length < 16000
      · rw [handleBinary_first_small st a t h1 h0 h2]
        exact bufInvariant_set_first _ _ (appendChunk_invariant st a h)
      · rw [handleBinary_first_big st a t h1 h0 (by omega)]
        cases t
        · exact appendChunk_invariant st a h
        · exact bufInvariant_set_first _ _ (appendChunk_invariant st a h)
    · have h1t : st.first_chunk_processed = true := by
        cases hb : st.first_chunk_processed
        · exact absurd hb h1
        · rfl
      by_cases h3 : st.total_size + a.length < 32000
      · rw [handleBinary_buffered st a t h1t h0 h3]
        exact appendChunk_invariant st a h
      · rw [handleBinary_emit st a t h1t h0 (by omega)]
        cases t
        · exact appendChunk_invariant st a h
        · exact emitUpdate_invariant _ _

theorem foldl_handleBinary_invariant : ∀ (ops : List (List Nat × Bool)) (st : ClientBuffer),
    bufInvariant st →
    bufInvariant (ops.foldl (fun s op => (handleBinary s op.1 op.2).1) st)
  | [], _, h => h
  | op :: rest, st, h =>
    foldl_handleBinary_invariant rest _ (handleBinary_invariant st op.1 op.2 h)

/-! ## Claims -/

/-- C10: a zero-length binary frame is skipped entirely: the buffer state is
unchanged, no transcription is attempted (`skippedEmpty`, the `continue` at
line 512 before the append at line 516), no server-to-client message is sent
for the frame (`send_failures = 0`) and the loop does not break (the
connection stays open). -/
theorem C10_empty_frame_skipped :
    ∀ (st : ClientBuffer) (tOk sOk eOk : Bool),
      handleBinary st [] tOk = (st, .skippedEmpty) ∧
      loopStep st (.binary [] tOk sOk eOk) = ⟨st, false, 0⟩ := by
  intro st tOk sOk eOk
  exact ⟨rfl, rfl⟩

/-- C9: after any sequence of binary-frame operations (appends, first-chunk
handling, emits with overlap retention or clearing, engine failures), the
cumulative `total_size` equals the sum of the lengths of the chunks held in
the pending list. -/
theorem C9_size_invariant : ∀ ops : List (List Nat × Bool), bufInvariant (runOps ops) := by
  intro ops
  exact foldl_handleBinary_invariant ops initBuffer rfl

/-- C4: the post-emit buffer update on a merged buffer of `n` bytes keeps
exactly the trailing 8000 bytes (with `total_size = 8000`) when `n > 8000`,
and clears the buffer (empty chunk list, `total_size = 0`) when `n ≤ 8000`. -/
theorem C4_overlap_retention (st : ClientBuffer) (combined : List Nat) :
    (8000 < combined.length →
      emitUpdate st combined =
        { st with chunks := [combined.drop (combined.length - 8000)],
                  total_size := 8000 }) ∧
    (combined.length ≤ 8000 →
      emitUpdate st combined = { st with chunks := [], total_size := 0 }) :=
  ⟨emitUpdate_pos st combined, emitUpdate_neg st combined⟩

/-- Witness for C4 at the merged-buffer sizes named by the claim: 40000
bytes retain the trailing 8000 bytes, 5000 bytes clear the buffer. -/
theorem C4_witness :
    (8000 < (List.replicate 40000 (0 : Nat)).length ∧
      emitUpdate initBuffer (List.replicate 40000 (0 : Nat)) =
        { initBuffer with
            chunks := [(List.replicate 40000 (0 : Nat)).drop
              ((List.replicate 40000 (0 : Nat)).length - 8000)],
            total_size := 8000 }) ∧
    ((List.replicate 5000 (0 : Nat)).length ≤ 8000 ∧
      emitUpdate initBuffer (List.replicate 5000 (0 : Nat)) =
        { initBuffer with chunks := [], total_size := 0 }) := by
  refine ⟨⟨?_, ?_⟩, ⟨?_, ?_⟩⟩
  · simp only [List.length_replicate]; omega
  · exact (C4_overlap_retention initBuffer _).1 (by simp only [List.length_replicate]; omega)
  · simp only [List.length_replicate]; omega
  · exact (C4_overlap_retention initBuffer _).2 (by simp only [List.length_replicate]; omega)

/-- C2 (amended): for the first binary chunk of a connection's lifetime,
a length below 16000 bytes sets `first_chunk_processed := true`, triggers no
transcription and emits no result (`firstSkipped`), while a length of at
least 16000 bytes (16000 included) gets that chunk alone transcribed in
realtime mode (`firstProcessed audio true`) with
`first_chunk_processed := true`; in both cases the chunk is retained in the
pending buffer (it is appended at lines 516-518, before the first-chunk
check, and never removed), not discarded. -/
theorem C2_first_chunk_handling (st : ClientBuffer) (audio : List Nat) (tOk : Bool)
    (h1 : st.first_chunk_processed = false) (h2 : audio ≠ []) :
    (audio.length < 16000 →
      handleBinary st audio tOk =
        ({ chunks := st.chunks ++ [audio], first_chunk_processed := true,
           total_size := st.total_size + audio.length,
           chunk_counter := st.chunk_counter + 1 }, .firstSkipped)) ∧
    (16000 ≤ audio.length →
      handleBinary st audio true =
        ({ chunks := st.chunks ++ [audio], first_chunk_processed := true,
           total_size := st.total_size + audio.length,
           chunk_counter := st.chunk_counter + 1 }, .firstProcessed audio true)) := by
  have h2' : audio.length ≠ 0 := fun hc => h2 (List.length_eq_zero.mp hc)
  constructor
  · intro h3
    rw [handleBinary_first_small st audio tOk h1 h2' h3]
    simp [appendChunk]
  · intro h3
    rw [handleBinary_first_big st audio true h1 h2' h3]
    simp [appendChunk]

/-- C2 counterexample: a 15999-byte first chunk is not discarded — after it
is handled, the pending buffer still holds it (`total_size = 15999`,
nonempty chunk list), refuting the claim that a short first chunk is "not
retained in the pending buffer state". -/
theorem C2_counterexample :
    ((handleBinary initBuffer (List.replicate 15999 0) true).1).total_size = 15999 ∧
    ((handleBinary initBuffer (List.replicate 15999 0) true).1).chunks ≠ [] ∧
    (handleBinary initBuffer (List.replicate 15999 0) true).2 = BinaryOutcome.firstSkipped := by
  rw [handleBinary_first_small initBuffer (List.replicate 15999 0) true rfl
    (by rw [List.length_replicate]; omega) (by rw [List.length_replicate]; omega)]
  refine ⟨?_, ?_, rfl⟩
  · show ({ appendChunk initBuffer (List.replicate 15999 0) with
        first_chunk_processed := true } : ClientBuffer).total_size = 15999
    rw [setFirst_total, appendChunk_total, List.length_replicate,
      show initBuffer.total_size = 0 from rfl, Nat.zero_add]
  · show ({ appendChunk initBuffer (List.replicate 15999 0) with
        first_chunk_processed := true } : ClientBuffer).chunks ≠ []
    rw [setFirst_chunks, appendChunk_chunks]
    exact fun hc => List.cons_ne_nil _ _ (List.append_eq_nil.mp hc).2

/-- Witness for C2 at the sizes named by the claim: a 16000-byte first chunk
is transcribed alone, a 15999-byte first chunk is skipped with
`first_chunk_processed` set. -/
theorem C2_witness :
    (initBuffer.first_chunk_processed = false ∧ List.replicate 16000 (0 : Nat) ≠ [] ∧
      16000 ≤ (List.replicate 16000 (0 : Nat)).length ∧
      handleBinary initBuffer (List.replicate 16000 0) true =
        ({ chunks := initBuffer.chunks ++ [List.replicate 16000 0],
           first_chunk_processed := true,
           total_size := initBuffer.total_size + (List.replicate 16000 (0 : Nat)).length,
           chunk_counter := initBuffer.chunk_counter + 1 },
         .firstProcessed (List.replicate 16000 0) true)) ∧
    ((List.replicate 15999 (0 : Nat)).length < 16000 ∧
      handleBinary initBuffer (List.replicate 15999 0) false =
        ({ chunks := initBuffer.chunks ++ [List.replicate 15999 0],
           first_chunk_processed := true,
           total_size := initBuffer.total_size + (List.replicate 15999 (0 : Nat)).length,
           chunk_counter := initBuffer.chunk_counter + 1 }, .firstSkipped)) := by
  refine ⟨⟨rfl, replicate_zero_ne_nil 16000 (by omega),
    by rw [List.length_replicate], ?_⟩, by rw [List.length_replicate]; omega, ?_⟩
  · exact (C2_first_chunk_handling initBuffer _ true rfl
      (replicate_zero_ne_nil 16000 (by omega))).2 (by rw [List.length_replicate])
  · exact (C2_first_chunk_handling initBuffer _ false rfl
      (replicate_zero_ne_nil 15999 (by omega))).1 (by rw [List.length_replicate]; omega)

/-- C3: for a chunk arriving after the first-chunk phase (nonempty, as empty
frames are skipped before reaching the buffer), an emit — merging all
pending chunks and transcribing — is triggered exactly when the cumulative
byte count (including the just-appended chunk) reaches 32000; below 32000
the chunk is only accumulated and no result is produced (`buffered`). -/
theorem C3_emit_threshold (st : ClientBuffer) (audio : List Nat) (tOk : Bool)
    (h1 : st.first_chunk_processed = true) (h2 : audio ≠ []) :
    (32000 ≤ st.total_size + audio.length →
      (handleBinary st audio tOk).2 =
        .emitted ((st.chunks ++ [audio]).flatten) tOk) ∧
    (st.total_size + audio.length < 32000 →
      handleBinary st audio tOk =
        ({ chunks := st.chunks ++ [audio],
           first_chunk_processed := st.first_chunk_processed,
           total_size := st.total_size + audio.length,
           chunk_counter := st.chunk_counter + 1 }, .buffered)) := by
  have h2' : audio.length ≠ 0 := fun hc => h2 (List.length_eq_zero.mp hc)
  constructor
  · intro h3
    rw [handleBinary_emit st audio tOk h1 h2' h3]
    simp [appendChunk]
  · intro h3
    rw [handleBinary_buffered st audio tOk h1 h2' h3]
    simp [appendChunk, h1]

/-- Witness for C3 at the byte counts named by the claim: a cumulative count
of exactly 32000 (31999 pending + 1) emits, a cumulative count of 31999
(31998 pending + 1) keeps accumulating. -/
theorem C3_witness :
    ((⟨[List.replicate 31999 0], true, 31999, 1⟩ : ClientBuffer).first_chunk_processed
        = true ∧
      ([0] : List Nat) ≠ [] ∧
      32000 ≤ (⟨[List.replicate 31999 0], true, 31999, 1⟩ : ClientBuffer).total_size
        + ([0] : List Nat).length ∧
      (handleBinary ⟨[List.replicate 31999 0], true, 31999, 1⟩ [0] true).2 =
        .emitted ((([List.replicate 31999 0] : List (List Nat)) ++ [[0]]).flatten) true) ∧
    ((⟨[List.replicate 31998 0], true, 31998, 1⟩ : ClientBuffer).total_size
        + ([0] : List Nat).length < 32000 ∧
      handleBinary ⟨[List.replicate 31998 0], true, 31998, 1⟩ [0] true =
        ({ chunks := ([List.replicate 31998 0] : List (List Nat)) ++ [[0]],
           first_chunk_processed := true, total_size := 31999,
           chunk_counter := 2 }, .buffered)) := by
  refine ⟨⟨rfl, by decide, by decide, ?_⟩, by decide, ?_⟩
  · exact (C3_emit_threshold ⟨[List.replicate 31999 0], true, 31999, 1⟩ [0] true rfl
      (by decide)).1 (by decide)
  · exact (C3_emit_threshold ⟨[List.replicate 31998 0], true, 31998, 1⟩ [0] true rfl
      (by decide)).2 (by decide)

/-- C5 counterexample: a single failed heartbeat send tears down the
connection by itself — the loop breaks with exactly one failed
server-to-client send, refuting the claim that teardown happens only after
two consecutive send failures. -/
theorem C5_counterexample :
    (loopStep initBuffer (LoopEvent.timeout false)).breaks = true ∧
    (loopStep initBuffer (LoopEvent.timeout false)).send_failures = 1 :=
  ⟨rfl, rfl⟩

/-- C5 (amended): teardown on send failure is not uniformly two-strikes — a
single failed heartbeat send (lines 663-665) or pong send (escaping to the
handler at lines 667-669) terminates the loop by itself; only the binary
transcription path gives a failed transcript send a second chance (the
error message), tearing down when that also fails, i.e. after two
consecutive failed sends. -/
theorem C5_send_failure_teardown (st : ClientBuffer) :
    ((loopStep st (.timeout false)).breaks = true ∧
      (loopStep st (.timeout false)).send_failures = 1) ∧
    ((loopStep st (.ping false)).breaks = true ∧
      (loopStep st (.ping false)).send_failures = 1) ∧
    ((loopStep st (.timeout true)).breaks = false) ∧
    ((loopStep st (.ping true)).breaks = false) ∧
    (∀ data sOk eOk, st.first_chunk_processed = true → data ≠ [] →
      32000 ≤ st.total_size + data.length →
      ((loopStep st (.binary data true sOk eOk)).breaks = true ↔
        (sOk = false ∧ eOk = false)) ∧
      (sOk = false → eOk = false →
        (loopStep st (.binary data true sOk eOk)).send_failures = 2)) := by
  refine ⟨⟨rfl, rfl⟩, ⟨rfl, rfl⟩, rfl, rfl, ?_⟩
  intro data sOk eOk h1 h2 h3
  have h2' : data.length ≠ 0 := fun hc => h2 (List.length_eq_zero.mp hc)
  have hb := handleBinary_emit st data true h1 h2' h3
  cases sOk <;> cases eOk <;> simp [loopStep, hb]

/-- Witness for C5 (amended) on the binary path: with a pending buffer of
31999 bytes and a one-byte chunk (so an emit fires), a failed transcript
send followed by a failed error send breaks the loop with two send
failures. -/
theorem C5_witness :
    ((⟨[List.replicate 31999 0], true, 31999, 1⟩ : ClientBuffer).first_chunk_processed
        = true ∧
      ([0] : List Nat) ≠ [] ∧
      32000 ≤ (⟨[List.replicate 31999 0], true, 31999, 1⟩ : ClientBuffer).total_size
        + ([0] : List Nat).length) ∧
    ((loopStep ⟨[List.replicate 31999 0], true, 31999, 1⟩
        (.binary [0] true false false)).breaks = true ↔
      ((false : Bool) = false ∧ (false : Bool) = false)) ∧
    (loopStep ⟨[List.replicate 31999 0], true, 31999, 1⟩
        (.binary [0] true false false)).send_failures = 2 := by
  refine ⟨⟨rfl, by decide, by decide⟩, ?_, ?_⟩
  · exact ((C5_send_failure_teardown ⟨[List.replicate 31999 0], true, 31999, 1⟩).2.2.2.2
      [0] false false rfl (by decide) (by decide)).1
  · exact ((C5_send_failure_teardown ⟨[List.replicate 31999 0], true, 31999, 1⟩).2.2.2.2
      [0] false false rfl (by decide) (by decide)).2 rfl rfl

/-- C6: for every odd input length n, the raw-PCM fallback consumes exactly
the first n-1 bytes (it drops the trailing byte, never rounds up), produces
(n-1)/2 samples, and sample i is the little-endian signed 16-bit value of
bytes 2i and 2i+1 divided by 32768. -/
theorem C6_raw_pcm_odd (audio_data : List Nat) (h : audio_data.length % 2 = 1) :
    _process_raw_audio audio_data
      = _process_raw_audio (audio_data.take (audio_data.length - 1)) ∧
    (_process_raw_audio audio_data).length = (audio_data.length - 1) / 2 ∧
    ∀ i : Nat, (_process_raw_audio audio_data)[i]? =
      (audio_data[2 * i]?).bind fun lo =>
        (audio_data[2 * i + 1]?).map fun hi =>
          (toSigned16 (lo + 256 * hi) : ℚ) / 32768 := by
  refine ⟨?_, ?_, ?_⟩
  · simp only [_process_raw_audio]
    rw [pcm16Pairs_take_of_odd audio_data h]
  · simp only [_process_raw_audio]
    rw [List.length_map, pcm16Pairs_length]
    omega
  · intro i
    simp only [_process_raw_audio]
    rw [List.getElem?_map, pcm16Pairs_getElem?]
    cases audio_data[2 * i]? <;> cases audio_data[2 * i + 1]? <;> simp

/-- Witness for C6 at the odd-length input [1, 2, 3]: the single sample is
the little-endian value of bytes 1 and 2, the trailing byte 3 is dropped. -/
theorem C6_witness :
    ([1, 2, 3] : List Nat).length % 2 = 1 ∧
    (_process_raw_audio [1, 2, 3]
        = _process_raw_audio (([1, 2, 3] : List Nat).take
            (([1, 2, 3] : List Nat).length - 1)) ∧
      (_process_raw_audio [1, 2, 3]).length = (([1, 2, 3] : List Nat).length - 1) / 2 ∧
      ∀ i : Nat, (_process_raw_audio [1, 2, 3])[i]? =
        (([1, 2, 3] : List Nat)[2 * i]?).bind fun lo =>
          (([1, 2, 3] : List Nat)[2 * i + 1]?).map fun hi =>
            (toSigned16 (lo + 256 * hi) : ℚ) / 32768) :=
  ⟨by decide, C6_raw_pcm_odd [1, 2, 3] (by decide)⟩

theorem selectVAD_realtime (peak : ℚ) :
    selectVAD true peak =
      if peak < 1/1000 then (false, ⟨2000, 1000, 1/20, 30⟩)
      else if peak < 1/100 then (true, ⟨2000, 1000, 1/20, 30⟩)
      else (true, ⟨2000, 1000, 1/20, 30⟩) := rfl

theorem selectVAD_batch (peak : ℚ) :
    selectVAD false peak =
      if peak < 1/1000 then (false, ⟨1500, 800, 1/10, 50⟩)
      else (true, ⟨1500, 800, 1/10, 50⟩) := rfl

/-- C7: VAD selection is a pure function of mode and peak amplitude — for a
peak below 0.001 VAD is disabled in both modes; at or above 0.001 it is
enabled with exactly the mode's fixed profile (realtime
minSilence 2000 ms / pad 1000 ms / threshold 0.05 / minSpeech 30 ms, batch
1500 / 800 / 0.1 / 50).  The second conjunct holds for every peak at or
above 0.001, so in particular the realtime weak band 0.001 ≤ peak < 0.01
changes no parameter. -/
theorem C7_vad_policy (realtime_mode : Bool) (peak : ℚ) :
    (peak < 1/1000 → (selectVAD realtime_mode peak).1 = false) ∧
    (1/1000 ≤ peak →
      selectVAD realtime_mode peak =
        (true, if realtime_mode then ⟨2000, 1000, 1/20, 30⟩
               else ⟨1500, 800, 1/10, 50⟩)) := by
  constructor
  · intro h
    cases realtime_mode
    · rw [selectVAD_batch, if_pos h]
    · rw [selectVAD_realtime, if_pos h]
  · intro h
    have h1 : ¬ peak < 1/1000 := not_lt.mpr h
    cases realtime_mode
    · rw [selectVAD_batch, if_neg h1, if_neg Bool.false_ne_true]
    · rw [selectVAD_realtime, if_neg h1, if_pos rfl]
      by_cases h2 : peak < 1/100
      · rw [if_pos h2]
      · rw [if_neg h2]

/-- Witness for C7 at the amplitudes named by the spec: peak 0.0005 disables
VAD in realtime mode, peak 0.05 enables batch VAD with the batch profile,
and the weak-band peak 0.005 yields the unchanged realtime profile. -/
theorem C7_witness :
    ((1 : ℚ)/2000 < 1/1000 ∧ (selectVAD true ((1 : ℚ)/2000)).1 = false) ∧
    ((1 : ℚ)/1000 ≤ 1/20 ∧
      selectVAD false ((1 : ℚ)/20) =
        (true, if false then ⟨2000, 1000, 1/20, 30⟩ else ⟨1500, 800, 1/10, 50⟩)) ∧
    ((1 : ℚ)/1000 ≤ 1/200 ∧
      selectVAD true ((1 : ℚ)/200) =
        (true, if true then ⟨2000, 1000, 1/20, 30⟩ else ⟨1500, 800, 1/10, 50⟩)) :=
  ⟨⟨by norm_num, (C7_vad_policy true ((1 : ℚ)/2000)).1 (by norm_num)⟩,
   ⟨by norm_num, (C7_vad_policy false ((1 : ℚ)/20)).2 (by norm_num)⟩,
   ⟨by norm_num, (C7_vad_policy true ((1 : ℚ)/200)).2 (by norm_num)⟩⟩

theorem transcribe_short_bytes (pa : List Nat → Option (List ℚ))
    (eng : List ℚ → Bool → VADParams → EngineOutput) (d : List Nat) (rt : Bool)
    (h : d.length < 100) :
    transcribe pa eng d rt = ⟨"", 0, "zh", 0, none, none, false⟩ := by
  simp only [transcribe]
  rw [if_pos h]

theorem transcribe_short_frame (pa : List Nat → Option (List ℚ))
    (eng : List ℚ → Bool → VADParams → EngineOutput) (d : List Nat) (rt : Bool)
    (s : List ℚ) (h1 : ¬ d.length < 100) (h2 : pa d = some s)
    (h3 : s.length < 1600) :
    transcribe pa eng d rt =
      ⟨"", 0, "zh", (s.length : ℚ) / 16000, none, none, false⟩ := by
  simp only [transcribe, h2]
  rw [if_neg h1]
  by_cases h0 : s.length = 0
  · rw [if_pos h0, h0]
    norm_num
  · rw [if_neg h0, if_pos h3]

theorem transcribe_engine (pa : List Nat → Option (List ℚ))
    (eng : List ℚ → Bool → VADParams → EngineOutput) (d : List Nat) (rt : Bool)
    (s : List ℚ) (h1 : ¬ d.length < 100) (h2 : pa d = some s)
    (h3 : 1600 ≤ s.length) :
    transcribe pa eng d rt =
      (let audio_max := audioMax s
       let vad := selectVAD rt audio_max
       let out := eng s vad.1 vad.2
       let transcription_text := out.segments.foldl (fun a seg => a ++ seg.text) ""
       let total_confidence := out.segments.foldl (fun a seg => a + seg.avg_logprob) 0
       let segment_count := out.segments.length
       let avg_confidence : ℚ :=
         if 0 < segment_count then total_confidence / (segment_count : ℚ) else 0
       let confidence := max 0 (min 1 ((avg_confidence + 1) / 2))
       ⟨pyStrip transcription_text, confidence, out.language, out.duration,
         some segment_count, some (audio_max, s.length), true⟩) := by
  simp only [transcribe, h2]
  rw [if_neg h1, if_neg (by omega), if_neg (by omega)]

/-- C8: a request whose byte length is under 100, or whose decoded frame has
fewer than 1600 samples, never reaches the engine and returns empty text
with confidence 0; the duration is 0 in the byte-short case (no samples
available) and sampleCount/16000 in the short-frame case. -/
theorem C8_short_circuit (pa : List Nat → Option (List ℚ))
    (eng : List ℚ → Bool → VADParams → EngineOutput) (d : List Nat) (rt : Bool)
    (h : d.length < 100 ∨
      (100 ≤ d.length ∧ ∃ s, pa d = some s ∧ s.length < 1600)) :
    (transcribe pa eng d rt).engine_called = false ∧
    (transcribe pa eng d rt).text = "" ∧
    (transcribe pa eng d rt).confidence = 0 ∧
    (d.length < 100 → (transcribe pa eng d rt).duration = 0) ∧
    (∀ s, 100 ≤ d.length → pa d = some s → s.length < 1600 →
      (transcribe pa eng d rt).duration = (s.length : ℚ) / 16000) := by
  rcases h with h | ⟨hlen, s, hps, hs⟩
  · rw [transcribe_short_bytes pa eng d rt h]
    exact ⟨rfl, rfl, rfl, fun _ => rfl, fun s hlen _ _ => absurd h (by omega)⟩
  · rw [transcribe_short_frame pa eng d rt s (by omega) hps hs]
    refine ⟨rfl, rfl, rfl, fun hc => absurd hc (by omega), ?_⟩
    intro s2 _ hps2 _
    have hss : s = s2 := Option.some.inj ((hps.symm).trans hps2)
    rw [hss]

/-- Witness for C8: a 50-byte request (decode never consulted) returns
duration 0 without an engine call; a 100-byte request decoding to a single
sample returns duration 1/16000 without an engine call. -/
theorem C8_witness :
    ((transcribe (fun _ => none) (fun _ _ _ => ⟨[], "zh", 0⟩)
        (List.replicate 50 0) true).engine_called = false ∧
      (transcribe (fun _ => none) (fun _ _ _ => ⟨[], "zh", 0⟩)
        (List.replicate 50 0) true).duration = 0) ∧
    ((transcribe (fun _ => some [0]) (fun _ _ _ => ⟨[], "zh", 0⟩)
        (List.replicate 100 0) true).engine_called = false ∧
      (transcribe (fun _ => some [0]) (fun _ _ _ => ⟨[], "zh", 0⟩)
        (List.replicate 100 0) true).duration
        = ((([0] : List ℚ).length : ℚ)) / 16000) := by
  have hA := C8_short_circuit (fun _ => none) (fun _ _ _ => ⟨[], "zh", 0⟩)
    (List.replicate 50 0) true (Or.inl (by rw [List.length_replicate]; omega))
  have hB := C8_short_circuit (fun _ => some [0]) (fun _ _ _ => ⟨[], "zh", 0⟩)
    (List.replicate 100 0) true
    (Or.inr ⟨by rw [List.length_replicate], [0], rfl, by decide⟩)
  exact ⟨⟨hA.1, hA.2.2.2.1 (by rw [List.length_replicate]; omega)⟩,
    ⟨hB.1, hB.2.2.2.2 [0] (by rw [List.length_replicate]) rfl (by decide)⟩⟩

/-- C1 counterexample: at the claim's own scenario — a 64000-byte all-zero
buffer decoded through the raw-PCM fallback, with the engine succeeding and
returning zero segments — the aggregated confidence is 0.5, not 0.0 (nor
near it): the zero-segment average is 0.0 and
clamp((0.0 + 1.0) / 2.0) = 0.5. -/
theorem C1_counterexample :
    (transcribe (fun d => some (_process_raw_audio d)) (fun _ _ _ => ⟨[], "zh", 2⟩)
        (List.replicate 64000 0) true).text = "" ∧
    (transcribe (fun d => some (_process_raw_audio d)) (fun _ _ _ => ⟨[], "zh", 2⟩)
        (List.replicate 64000 0) true).confidence = 1/2 ∧
    ((1 : ℚ)/2 ≠ 0) := by
  have h1 : ¬ (List.replicate 64000 (0 : Nat)).length < 100 := by
    rw [List.length_replicate]; omega
  have h3 : 1600 ≤ (_process_raw_audio (List.replicate 64000 0)).length := by
    simp only [_process_raw_audio]
    rw [List.length_map, pcm16Pairs_length, List.length_replicate]
    omega
  have he := transcribe_engine (fun d => some (_process_raw_audio d))
    (fun _ _ _ => ⟨[], "zh", 2⟩) (List.replicate 64000 0) true
    (_process_raw_audio (List.replicate 64000 0)) h1 rfl h3
  rw [he]
  refine ⟨?_, ?_, by norm_num⟩
  · show pyStrip (([] : List Segment).foldl (fun a seg => a ++ seg.text) "") = ""
    rw [List.foldl_nil]
    rfl
  · show max 0 (min 1 ((((if 0 < ([] : List Segment).length then
        (([] : List Segment).foldl (fun a seg => a + seg.avg_logprob) 0)
          / ((([] : List Segment).length : Nat) : ℚ) else 0)) + 1) / 2)) = 1/2
    norm_num

/-- C1 (amended): for any transcription window where the engine returns
zero segments, the aggregated result has empty text and confidence exactly
0.5 — the per-segment log-probability average is taken as 0.0 for zero
segments and the final confidence is
clamp((avgLogProb + 1.0) / 2.0, 0.0, 1.0) = 0.5. -/
theorem C1_zero_segments (pa : List Nat → Option (List ℚ))
    (eng : List ℚ → Bool → VADParams → EngineOutput) (d : List Nat) (rt : Bool)
    (s : List ℚ) (h1 : 100 ≤ d.length) (h2 : pa d = some s)
    (h3 : 1600 ≤ s.length)
    (h4 : (eng s (selectVAD rt (audioMax s)).1
        (selectVAD rt (audioMax s)).2).segments = []) :
    (transcribe pa eng d rt).text = "" ∧
    (transcribe pa eng d rt).confidence = 1/2 ∧
    (transcribe pa eng d rt).engine_called = true := by
  rw [transcribe_engine pa eng d rt s (by omega) h2 h3]
  refine ⟨?_, ?_, rfl⟩
  · show pyStrip ((eng s (selectVAD rt (audioMax s)).1
        (selectVAD rt (audioMax s)).2).segments.foldl
          (fun a seg => a ++ seg.text) "") = ""
    rw [h4, List.foldl_nil]
    rfl
  · show max 0 (min 1 ((((if 0 < (eng s (selectVAD rt (audioMax s)).1
        (selectVAD rt (audioMax s)).2).segments.length then
          ((eng s (selectVAD rt (audioMax s)).1
            (selectVAD rt (audioMax s)).2).segments.foldl
              (fun a seg => a + seg.avg_logprob) 0)
            / (((eng s (selectVAD rt (audioMax s)).1
              (selectVAD rt (audioMax s)).2).segments.length : Nat) : ℚ)
          else 0)) + 1) / 2)) = 1/2
    rw [h4, List.foldl_nil, List.length_nil]
    norm_num

/-- Witness for C1 (amended) with a 100-byte input, a decode oracle giving
1600 zero samples and an engine returning zero segments. -/
theorem C1_witness :
    100 ≤ (List.replicate 100 (0 : Nat)).length ∧
    ((fun _ => some (List.replicate 1600 (0 : ℚ)) : List Nat → Option (List ℚ))
        (List.replicate 100 0) = some (List.replicate 1600 (0 : ℚ))) ∧
    1600 ≤ (List.replicate 1600 (0 : ℚ)).length ∧
    (((fun _ _ _ => (⟨[], "zh", 2⟩ : EngineOutput))
        (List.replicate 1600 (0 : ℚ))
        (selectVAD true (audioMax (List.replicate 1600 0))).1
        (selectVAD true (audioMax (List.replicate 1600 0))).2).segments = []) ∧
    ((transcribe (fun _ => some (List.replicate 1600 0)) (fun _ _ _ => ⟨[], "zh", 2⟩)
        (List.replicate 100 0) true).text = "" ∧
      (transcribe (fun _ => some (List.replicate 1600 0)) (fun _ _ _ => ⟨[], "zh", 2⟩)
        (List.replicate 100 0) true).confidence = 1/2 ∧
      (transcribe (fun _ => some (List.replicate 1600 0)) (fun _ _ _ => ⟨[], "zh", 2⟩)
        (List.replicate 100 0) true).engine_called = true) := by
  refine ⟨by rw [List.length_replicate], rfl, by rw [List.length_replicate], rfl, ?_⟩
  exact C1_zero_segments (fun _ => some (List.replicate 1600 0))
    (fun _ _ _ => ⟨[], "zh", 2⟩) (List.replicate 100 0) true
    (List.replicate 1600 0) (by rw [List.length_replicate]) rfl
    (by rw [List.length_replicate]) rfl

end ASR
